import Mathlib

/-!
Verification of the fluency-admin ingestion pipelines.

The repository has two entry points with near-duplicate pipeline logic:
`run_pipeline` in `src/api.py` (URL-trigger path, invoked from the
`/capture` endpoint) and `process_video` in `src/admin.py` (interactive
upload path).  Both are embedded below as pure functions from an
environment — the outcomes of every external call (download, media
decode, speech recognition, generative request, storage upload, database
inserts) — to a `RunTrace` recording the stages entered, the durable
effects performed, whether the transient local files were created and
later deleted, and whether the run crashed with an uncaught exception.
-/

/-- A parsed JSON / Python value, as produced by `json.loads`. -/
inductive JVal where
  | null
  | bool (b : Bool)
  | num (n : Int)
  | str (s : String)
  | arr (elems : List JVal)
  | obj (fields : List (String × JVal))

/-- Python `d.get(k, dflt)` on a parsed JSON object. -/
def pyDictGet (fields : List (String × JVal)) (k : String) (dflt : JVal) : JVal :=
  match fields.find? (fun p => p.1 == k) with
  | some p => p.2
  | none => dflt

/-- Python `d[k]` on a parsed JSON object; `none` models a `KeyError`. -/
def pyDictGetStrict (fields : List (String × JVal)) (k : String) : Option JVal :=
  (fields.find? (fun p => p.1 == k)).map (fun p => p.2)

/-- Python truthiness (`if v:`) of a JSON value. -/
def pyTruthy : JVal → Bool
  | .null => false
  | .bool b => b
  | .num n => n != 0
  | .str s => s != ""
  | .arr elems => !elems.isEmpty
  | .obj fields => !fields.isEmpty

/-- Python iteration (`for x in v`): lists yield elements, strings yield
one-character strings, dicts yield keys; `none` models a `TypeError`. -/
def pyIter : JVal → Option (List JVal)
  | .arr elems => some elems
  | .str s => some (s.toList.map (fun c => JVal.str (String.mk [c])))
  | .obj fields => some (fields.map (fun p => JVal.str p.1))
  | _ => none

/-- Python `int(q)`: truncation toward zero. -/
def pyInt (q : Rat) : Int := Int.tdiv q.num (q.den : Int)

/-- The character filter of `src/api.py` line 136:
`x.isalnum() or x in " _-"` (ASCII reading of `isalnum`). -/
def keepChar (c : Char) : Bool := c.isAlphanum || c == ' ' || c == '_' || c == '-'

/-- Python `str.replace(' ', '_')`, character by character. -/
def spaceToUnderscore (c : Char) : Char := if c == ' ' then '_' else c

/-- `safe_title` of `src/api.py` line 136: keep only the allowed characters. -/
def apiSafeTitle (t : String) : String := String.mk (t.toList.filter keepChar)

/-- `s.replace(' ', '_')` on a whole string. -/
def pyReplaceSpace (s : String) : String := String.mk (s.toList.map spaceToUnderscore)

/-- The storage name derived in `src/api.py` line 137 (before the extension). -/
def apiStorageName (t : String) : String := pyReplaceSpace (apiSafeTitle t)

/-- The storage key of `src/api.py` line 137: `f"{safe_title.replace(' ', '_')}.mp4"`. -/
def apiFilename (t : String) : String := apiStorageName t ++ ".mp4"

/-- The storage name derived in `src/admin.py` line 81 (before the extension):
only space replacement, no character stripping. -/
def adminStorageName (t : String) : String := pyReplaceSpace t

/-- The storage key of `src/admin.py` line 81: `f"{title.replace(' ', '_')}.mp4"`. -/
def adminFileName (t : String) : String := adminStorageName t ++ ".mp4"

/-- Pipeline stages, in the spec's vocabulary (§4.7). -/
inductive Stage where
  | acquiring
  | extractingAudio
  | transcribing
  | synthesizing
  | publishing
  | persisting
deriving Repr, BEq, DecidableEq

/-- A row of the `content_library` table.  Dynamically-typed fields
(`title`, `category`, `sub_category`) are kept as JSON values, exactly as
Python would pass them to the insert. -/
structure ContentRecord where
  video_url : String
  title : JVal
  transcript_text : String
  category : JVal
  sub_category : JVal
  duration_seconds : Int

/-- A row of the `questions` table, fields as the dynamically-typed values
Python inserts. -/
structure QuestionRecord where
  video_id : Nat
  difficulty_phase : JVal
  question_text : JVal
  correct_answer : JVal
  wrong_options : JVal

/-- Observable outcome of one pipeline run: stages entered in order,
whether a speech-recognition request was issued, the storage keys
uploaded, the database rows inserted, creation/cleanup of the transient
local files, whether an uncaught exception escaped, and whether the run
reached its final completion point. -/
structure RunTrace where
  stages : List Stage := []
  sttCalled : Bool := false
  uploads : List String := []
  contents : List ContentRecord := []
  qrecords : List QuestionRecord := []
  videoCreated : Bool := false
  audioCreated : Bool := false
  cleanupRan : Bool := false
  crashed : Bool := false
  done : Bool := false

/-- Build one `questions` row in `src/api.py` lines 176-182: every field
is read with `.get` and a default (`0`, `'Error'`, `'Error'`, `[]`). -/
def apiQRow (newId : Nat) (m : List (String × JVal)) : QuestionRecord :=
  { video_id := newId
    difficulty_phase := pyDictGet m "stage" (JVal.num 0)
    question_text := pyDictGet m "q" (JVal.str "Error")
    correct_answer := pyDictGet m "correct" (JVal.str "Error")
    wrong_options := pyDictGet m "wrong" (JVal.arr []) }

/-- Build one `questions` row in `src/admin.py` lines 132-138: every field
is read with strict indexing, so a missing key is a `KeyError` (`none`). -/
def adminQRow (newId : Nat) (m : List (String × JVal)) : Option QuestionRecord :=
  match pyDictGetStrict m "stage", pyDictGetStrict m "q",
        pyDictGetStrict m "correct", pyDictGetStrict m "wrong" with
  | some s, some q, some c, some w =>
      some { video_id := newId, difficulty_phase := s, question_text := q,
             correct_answer := c, wrong_options := w }
  | _, _, _, _ => none

/-- Run the question-building loop over the drafts iterated from the
`questions` value: `none` models an exception inside the loop (iterating a
non-iterable, indexing a non-dict element, or a `KeyError` in `mk`). -/
def optionRows (mk : List (String × JVal) → Option QuestionRecord) :
    List JVal → Option (List QuestionRecord)
  | [] => some []
  | .obj m :: rest =>
      match mk m, optionRows mk rest with
      | some r, some rs => some (r :: rs)
      | _, _ => none
  | _ :: _ => none

/-- The `for q in questions` loop applied to the raw `questions` value. -/
def questionRows (mk : List (String × JVal) → Option QuestionRecord) (v : JVal) :
    Option (List QuestionRecord) :=
  match pyIter v with
  | some elems => optionRows mk elems
  | none => none

/-- Environment of one `run_pipeline` execution (`src/api.py`): the outcome
of each external call.  `none` models the call raising an exception. -/
structure ApiEnv where
  url : String
  download : Option (String × String)
  openedDuration : Option Rat
  writeAudioOk : Bool
  transcribe : Option String
  aiResponse : Option (List (String × JVal))
  uploadOk : Bool
  publicUrlOf : String → String
  insertContentOk : Bool
  newId : Nat
  insertQuestionsOk : Bool

/-- Shallow embedding of `run_pipeline` (`src/api.py` lines 43-194).
Exceptions from the download, the media decode, the generative request and
the two database writes are caught by the surrounding `try` blocks; the
transcription call and the `meta.get`/title-join expressions at lines
75-76 and 136 are not, so their failures crash the background task. -/
def apiRun (e : ApiEnv) : RunTrace :=
  if e.url = "" then {}
  else
    match e.download with
    | none => { stages := [.acquiring] }
    | some _pathTitle =>
      match e.openedDuration with
      | none => { stages := [.acquiring, .extractingAudio], videoCreated := true }
      | some d =>
        if d < 5 then
          { stages := [.acquiring, .extractingAudio], videoCreated := true }
        else if !e.writeAudioOk then
          { stages := [.acquiring, .extractingAudio], videoCreated := true }
        else
          match e.transcribe with
          | none =>
            { stages := [.acquiring, .extractingAudio, .transcribing],
              sttCalled := true, videoCreated := true, audioCreated := true,
              crashed := true }
          | some t =>
            if t.length < 20 then
              { stages := [.acquiring, .extractingAudio, .transcribing],
                sttCalled := true, videoCreated := true, audioCreated := true }
            else
              match e.aiResponse with
              | none =>
                { stages := [.acquiring, .extractingAudio, .transcribing, .synthesizing],
                  sttCalled := true, videoCreated := true, audioCreated := true }
              | some ai =>
                match pyDictGet ai "metadata" (JVal.obj []) with
                | .obj meta =>
                  match pyDictGet meta "title" (JVal.str "Video") with
                  | .str titleStr =>
                    let filename := pyReplaceSpace (apiSafeTitle titleStr) ++ ".mp4"
                    if !e.uploadOk then
                      { stages := [.acquiring, .extractingAudio, .transcribing,
                                   .synthesizing, .publishing],
                        sttCalled := true, videoCreated := true, audioCreated := true }
                    else
                      let publicUrl := e.publicUrlOf filename
                      let questionsV := pyDictGet ai "questions" (JVal.arr [])
                      let base : RunTrace :=
                        { stages := [.acquiring, .extractingAudio, .transcribing,
                                     .synthesizing, .publishing, .persisting],
                          sttCalled := true, uploads := [filename],
                          videoCreated := true, audioCreated := true,
                          cleanupRan := true, done := true }
                      if !e.insertContentOk then base
                      else
                        let record : ContentRecord :=
                          { video_url := publicUrl
                            title := pyDictGet meta "title" (JVal.str "Untitled")
                            transcript_text := t
                            category := pyDictGet meta "category" (JVal.str "General")
                            sub_category := pyDictGet meta "sub_category" JVal.null
                            duration_seconds := pyInt d }
                        let qrs : List QuestionRecord :=
                          if pyTruthy questionsV then
                            match questionRows (fun m => some (apiQRow e.newId m)) questionsV with
                            | some rows => if e.insertQuestionsOk then rows else []
                            | none => []
                          else []
                        { base with contents := [record], qrecords := qrs }
                  | _ =>
                    { stages := [.acquiring, .extractingAudio, .transcribing,
                                 .synthesizing, .publishing],
                      sttCalled := true, videoCreated := true, audioCreated := true,
                      crashed := true }
                | _ =>
                  { stages := [.acquiring, .extractingAudio, .transcribing,
                               .synthesizing, .publishing],
                    sttCalled := true, videoCreated := true, audioCreated := true,
                    crashed := true }

/-- Environment of one `process_video` execution (`src/admin.py`). -/
structure AdminEnv where
  title : String
  category : String
  subCategory : String
  audioExtract : Option Rat
  transcribe : Option String
  uploadOk : Bool
  publicUrlOf : String → String
  aiResponse : Option (List (String × JVal))
  insertContentOk : Bool
  newId : Nat
  insertQuestionsOk : Bool

/-- Shallow embedding of `process_video` (`src/admin.py` lines 46-147).
Only the audio-extraction block is wrapped in `try`/`except`; every later
external call crashes the run on failure.  There is no duration guard, no
transcript-length guard, the storage upload happens before the generative
request, and cleanup of the temporary files runs only at the very end of
the success path. -/
def adminRun (e : AdminEnv) : RunTrace :=
  match e.audioExtract with
  | none => { stages := [.acquiring, .extractingAudio], videoCreated := true }
  | some d =>
    match e.transcribe with
    | none =>
      { stages := [.acquiring, .extractingAudio, .transcribing],
        sttCalled := true, videoCreated := true, audioCreated := true,
        crashed := true }
    | some t =>
      let filename := pyReplaceSpace e.title ++ ".mp4"
      if !e.uploadOk then
        { stages := [.acquiring, .extractingAudio, .transcribing, .publishing],
          sttCalled := true, videoCreated := true, audioCreated := true,
          crashed := true }
      else
        let publicUrl := e.publicUrlOf filename
        match e.aiResponse with
        | none =>
          { stages := [.acquiring, .extractingAudio, .transcribing, .publishing,
                       .synthesizing],
            sttCalled := true, uploads := [filename],
            videoCreated := true, audioCreated := true, crashed := true }
        | some ai =>
          let fullCategory :=
            if e.subCategory != "" then e.category ++ " > " ++ e.subCategory
            else e.category
          if !e.insertContentOk then
            { stages := [.acquiring, .extractingAudio, .transcribing, .publishing,
                         .synthesizing, .persisting],
              sttCalled := true, uploads := [filename],
              videoCreated := true, audioCreated := true, crashed := true }
          else
            let record : ContentRecord :=
              { video_url := publicUrl, title := JVal.str e.title,
                transcript_text := t, category := JVal.str fullCategory,
                sub_category := JVal.null, duration_seconds := pyInt d }
            let failTrace : RunTrace :=
              { stages := [.acquiring, .extractingAudio, .transcribing, .publishing,
                           .synthesizing, .persisting],
                sttCalled := true, uploads := [filename], contents := [record],
                videoCreated := true, audioCreated := true, crashed := true }
            match pyDictGetStrict ai "questions" with
            | none => failTrace
            | some qv =>
              match questionRows (adminQRow e.newId) qv with
              | none => failTrace
              | some rows =>
                if !e.insertQuestionsOk then failTrace
                else
                  { stages := [.acquiring, .extractingAudio, .transcribing, .publishing,
                               .synthesizing, .persisting],
                    sttCalled := true, uploads := [filename], contents := [record],
                    qrecords := rows, videoCreated := true, audioCreated := true,
                    cleanupRan := true, done := true }

/-- The HTTP reply of the `/capture` endpoint. -/
structure CaptureReply where
  status : String
  message : String

/-- Shallow embedding of `capture_video` (`src/api.py` lines 197-200): the
endpoint schedules the pipeline and replies unconditionally. -/
def captureVideo (_u : String) : CaptureReply :=
  { status := "processing", message := "Fluency is curating this video..." }

/-- Action taken by the upload form (`src/admin.py` lines 173-176). -/
inductive TriggerAction where
  | process
  | warn
  | noop
deriving Repr, BEq, DecidableEq

/-- Shallow embedding of the submit handling of `src/admin.py` lines
173-176: process only with a file and a non-empty title, else warn. -/
def adminSubmit (submitted : Bool) (hasFile : Bool) (title : String) : TriggerAction :=
  if submitted && hasFile && title != "" then .process
  else if submitted then .warn
  else .noop

/-! Sample environments and responses, used by witnesses and counterexamples. -/

/-- A transcript comfortably above the 20-character threshold. -/
def apiTranscript : String := "This is a valid transcript about gravity and motion."

/-- Two well-formed question drafts. -/
def sampleQuestions : List (List (String × JVal)) :=
  [ [("stage", JVal.num 0), ("q", JVal.str "Q0"), ("correct", JVal.str "A0"),
     ("wrong", JVal.arr [JVal.str "w1", JVal.str "w2", JVal.str "w3"])],
    [("stage", JVal.num 1), ("q", JVal.str "Q1"), ("correct", JVal.str "A1"),
     ("wrong", JVal.arr [JVal.str "w1", JVal.str "w2", JVal.str "w3"])] ]

/-- A well-formed generative response for the URL pipeline. -/
def sampleAi : List (String × JVal) :=
  [("metadata", JVal.obj [("title", JVal.str "Gravity Basics"),
                          ("category", JVal.str "Science")]),
   ("questions", JVal.arr (sampleQuestions.map JVal.obj))]

/-- A URL-pipeline environment in which every external call succeeds. -/
def apiEnvOk : ApiEnv :=
  { url := "https://example.com/v"
    download := some ("temp_abc.mp4", "Src")
    openedDuration := some 30
    writeAudioOk := true
    transcribe := some apiTranscript
    aiResponse := some sampleAi
    uploadOk := true
    publicUrlOf := fun fn => "https://cdn/" ++ fn
    insertContentOk := true
    newId := 7
    insertQuestionsOk := true }

/-- An upload-pipeline environment in which every external call succeeds. -/
def adminEnvOk : AdminEnv :=
  { title := "My Talk"
    category := "Science"
    subCategory := ""
    audioExtract := some 30
    transcribe := some apiTranscript
    uploadOk := true
    publicUrlOf := fun fn => "https://cdn/" ++ fn
    aiResponse := some [("questions", JVal.arr (sampleQuestions.map JVal.obj))]
    insertContentOk := true
    newId := 7
    insertQuestionsOk := true }

/-- A generative response whose top-level object has a `questions` array
with one draft carrying an out-of-range stage and only two wrong options. -/
def badDraft : List (String × JVal) :=
  [("stage", JVal.num 7), ("q", JVal.str "Q"), ("correct", JVal.str "A"),
   ("wrong", JVal.arr [JVal.str "w1", JVal.str "w2"])]

/-- URL-pipeline environment whose generative response has no `metadata`
object and an empty `questions` array. -/
def apiEnvNoMeta : ApiEnv :=
  { apiEnvOk with aiResponse := some [("questions", JVal.arr [])] }

/-- A generative response whose metadata object has no `title` field. -/
def noTitleAi : List (String × JVal) :=
  [("metadata", JVal.obj [("category", JVal.str "Science")]),
   ("questions", JVal.arr [])]

/-- URL-pipeline environment whose metadata object has no `title` field. -/
def apiEnvNoTitle : ApiEnv :=
  { apiEnvOk with aiResponse := some noTitleAi }

/-- URL-pipeline environment whose only question draft is `badDraft`. -/
def apiEnvBadQ : ApiEnv :=
  { apiEnvOk with aiResponse := some [("questions", JVal.arr [JVal.obj badDraft])] }

/-! Helper lemmas about the question-building loop and successful runs. -/

/-- The null string comparison used below: `(String.mk l).toList` is `l`. -/
theorem toList_mk (l : List Char) : (String.mk l).toList = l := rfl

/-- The question loop of the URL pipeline never fails and never drops a
draft: on a list of parsed objects it returns one row per draft. -/
theorem optionRows_map_some (f : List (String × JVal) → QuestionRecord) :
    ∀ qs : List (List (String × JVal)),
      optionRows (fun m => some (f m)) (qs.map JVal.obj) = some (qs.map f) := by
  intro qs
  induction qs with
  | nil => rfl
  | cons m rest ih => simp [optionRows, ih]

/-- When every draft builds a row, the strict question loop of the upload
pipeline returns one row per draft. -/
theorem optionRows_exists_of_isSome (mk : List (String × JVal) → Option QuestionRecord) :
    ∀ qs : List (List (String × JVal)),
      (∀ m ∈ qs, (mk m).isSome = true) →
      ∃ rows, optionRows mk (qs.map JVal.obj) = some rows ∧ rows.length = qs.length := by
  intro qs
  induction qs with
  | nil => intro _; exact ⟨[], rfl, rfl⟩
  | cons m rest ih =>
    intro h
    obtain ⟨r, hr⟩ := Option.isSome_iff_exists.1 (h m (List.mem_cons_self m rest))
    obtain ⟨rows, hrows, hlen⟩ := ih (fun m2 hm2 => h m2 (List.mem_cons_of_mem m hm2))
    exact ⟨r :: rows, by simp [optionRows, hr, hrows], by simp [hlen]⟩

/-- Iterating an actual JSON array of objects and building rows with a
total builder yields exactly one row per draft. -/
theorem questionRows_map_some (f : List (String × JVal) → QuestionRecord)
    (qs : List (List (String × JVal))) :
    questionRows (fun m => some (f m)) (JVal.arr (qs.map JVal.obj)) = some (qs.map f) := by
  simp [questionRows, pyIter, optionRows_map_some]

/-- Normal form of a fully successful URL-pipeline run. -/
theorem apiRun_success_eq
    (e : ApiEnv) (path src t : String) (d : Rat)
    (ai m : List (String × JVal)) (titleStr : String)
    (hurl : ¬ e.url = "")
    (hdl : e.download = some (path, src))
    (hdur : e.openedDuration = some d) (hd5 : ¬ d < 5)
    (hwa : e.writeAudioOk = true)
    (ht : e.transcribe = some t) (hlen : ¬ t.length < 20)
    (hai : e.aiResponse = some ai)
    (hmeta : pyDictGet ai "metadata" (JVal.obj []) = JVal.obj m)
    (htitle : pyDictGet m "title" (JVal.str "Video") = JVal.str titleStr)
    (hup : e.uploadOk = true)
    (hins : e.insertContentOk = true) :
    apiRun e =
      { stages := [.acquiring, .extractingAudio, .transcribing, .synthesizing,
                   .publishing, .persisting]
        sttCalled := true
        uploads := [pyReplaceSpace (apiSafeTitle titleStr) ++ ".mp4"]
        contents := [{ video_url := e.publicUrlOf (pyReplaceSpace (apiSafeTitle titleStr) ++ ".mp4")
                       title := pyDictGet m "title" (JVal.str "Untitled")
                       transcript_text := t
                       category := pyDictGet m "category" (JVal.str "General")
                       sub_category := pyDictGet m "sub_category" JVal.null
                       duration_seconds := pyInt d }]
        qrecords :=
          (if pyTruthy (pyDictGet ai "questions" (JVal.arr [])) then
            match questionRows (fun mm => some (apiQRow e.newId mm))
                (pyDictGet ai "questions" (JVal.arr [])) with
            | some rows => if e.insertQuestionsOk then rows else []
            | none => []
          else [])
        videoCreated := true
        audioCreated := true
        cleanupRan := true
        crashed := false
        done := true } := by
  unfold apiRun
  simp [hurl, hdl, hdur, hd5, hwa, ht, hlen, hai, hmeta, htitle, hup, hins]

/-- Normal form of a fully successful upload-pipeline run. -/
theorem adminRun_success_eq
    (e : AdminEnv) (t : String) (d : Rat) (ai : List (String × JVal))
    (qv : JVal) (rows : List QuestionRecord)
    (hae : e.audioExtract = some d)
    (ht : e.transcribe = some t)
    (hup : e.uploadOk = true)
    (hai : e.aiResponse = some ai)
    (hins : e.insertContentOk = true)
    (hq : pyDictGetStrict ai "questions" = some qv)
    (hrows : questionRows (adminQRow e.newId) qv = some rows)
    (hinsQ : e.insertQuestionsOk = true) :
    adminRun e =
      { stages := [.acquiring, .extractingAudio, .transcribing, .publishing,
                   .synthesizing, .persisting]
        sttCalled := true
        uploads := [pyReplaceSpace e.title ++ ".mp4"]
        contents := [{ video_url := e.publicUrlOf (pyReplaceSpace e.title ++ ".mp4")
                       title := JVal.str e.title
                       transcript_text := t
                       category := JVal.str (if e.subCategory != "" then
                         e.category ++ " > " ++ e.subCategory else e.category)
                       sub_category := JVal.null
                       duration_seconds := pyInt d }]
        qrecords := rows
        videoCreated := true
        audioCreated := true
        cleanupRan := true
        crashed := false
        done := true } := by
  unfold adminRun
  simp [hae, ht, hup, hai, hins, hq, hrows, hinsQ]

/-- Reduction of the URL pipeline's question-insert expression when the
`questions` value is an array of parsed objects and the insert succeeds. -/
theorem api_qrows_eq (nid : Nat) (qs : List (List (String × JVal))) :
    (if pyTruthy (JVal.arr (qs.map JVal.obj)) then
       match questionRows (fun mm => some (apiQRow nid mm)) (JVal.arr (qs.map JVal.obj)) with
       | some rows => if true then rows else []
       | none => []
     else []) = qs.map (apiQRow nid) := by
  cases qs with
  | nil => rfl
  | cons q rest =>
    rw [questionRows_map_some]
    rfl

/-- Contents and question rows of a fully successful URL-pipeline run. -/
theorem apiRun_success_rows
    (e : ApiEnv) (path src t : String) (d : Rat)
    (ai m : List (String × JVal)) (titleStr : String)
    (qs : List (List (String × JVal)))
    (hurl : ¬ e.url = "")
    (hdl : e.download = some (path, src))
    (hdur : e.openedDuration = some d) (hd5 : ¬ d < 5)
    (hwa : e.writeAudioOk = true)
    (ht : e.transcribe = some t) (hlen : ¬ t.length < 20)
    (hai : e.aiResponse = some ai)
    (hmeta : pyDictGet ai "metadata" (JVal.obj []) = JVal.obj m)
    (htitle : pyDictGet m "title" (JVal.str "Video") = JVal.str titleStr)
    (hup : e.uploadOk = true)
    (hins : e.insertContentOk = true)
    (hqs : pyDictGet ai "questions" (JVal.arr []) = JVal.arr (qs.map JVal.obj))
    (hinsQ : e.insertQuestionsOk = true) :
    (apiRun e).contents.length = 1 ∧
    (apiRun e).qrecords = qs.map (apiQRow e.newId) := by
  rw [apiRun_success_eq e path src t d ai m titleStr hurl hdl hdur hd5 hwa ht
        hlen hai hmeta htitle hup hins]
  refine ⟨rfl, ?_⟩
  rw [hqs, hinsQ]
  exact api_qrows_eq e.newId qs

/-! Claim C1: the transcript-length guard. -/

/-- C1 (amended): in the URL-trigger pipeline, a transcript shorter than
20 characters aborts the run before any durable entity is created — no
storage upload, no content row, no question row.  The upload pipeline has
no transcript-length guard (see the counterexample). -/
theorem api_short_transcript_aborts (e : ApiEnv) (t : String)
    (ht : e.transcribe = some t) (hlen : t.length < 20) :
    (apiRun e).uploads = [] ∧ (apiRun e).contents = [] ∧ (apiRun e).qrecords = [] := by
  unfold apiRun
  repeat' split
  all_goals simp_all

/-- Witness for C1's theorem at a concrete 5-character transcript. -/
theorem api_short_transcript_aborts_witness :
    ({ apiEnvOk with transcribe := some "short" } : ApiEnv).transcribe = some "short" ∧
    "short".length < 20 ∧
    ((apiRun { apiEnvOk with transcribe := some "short" }).uploads = [] ∧
     (apiRun { apiEnvOk with transcribe := some "short" }).contents = [] ∧
     (apiRun { apiEnvOk with transcribe := some "short" }).qrecords = []) :=
  ⟨rfl, by decide, api_short_transcript_aborts _ "short" rfl (by decide)⟩

/-- C1 counterexample: the upload pipeline has no transcript-length guard.
With a 5-character transcript it still uploads the video, inserts the
content row, and completes. -/
theorem admin_short_transcript_persists :
    "short".length < 20 ∧
    (adminRun { adminEnvOk with transcribe := some "short" }).uploads = ["My_Talk.mp4"] ∧
    (adminRun { adminEnvOk with transcribe := some "short" }).contents.length = 1 ∧
    (adminRun { adminEnvOk with transcribe := some "short" }).done = true :=
  ⟨by decide, rfl, rfl, rfl⟩

/-! Claim C2: the minimum-duration guard. -/

/-- C2 (amended): in the URL-trigger pipeline, a media duration strictly
below 5 seconds aborts the run before any speech-recognition request is
made and before any durable effect.  The upload pipeline has no duration
guard (see the counterexample). -/
theorem api_short_duration_aborts (e : ApiEnv) (d : Rat)
    (hd : e.openedDuration = some d) (hlt : d < 5) :
    (apiRun e).sttCalled = false ∧ (apiRun e).uploads = [] ∧
    (apiRun e).contents = [] ∧ (apiRun e).qrecords = [] := by
  unfold apiRun
  repeat' split
  all_goals simp_all

/-- Witness for C2's theorem at a concrete 3-second duration. -/
theorem api_short_duration_aborts_witness :
    ({ apiEnvOk with openedDuration := some 3 } : ApiEnv).openedDuration = some 3 ∧
    (3 : Rat) < 5 ∧
    ((apiRun { apiEnvOk with openedDuration := some 3 }).sttCalled = false ∧
     (apiRun { apiEnvOk with openedDuration := some 3 }).uploads = [] ∧
     (apiRun { apiEnvOk with openedDuration := some 3 }).contents = [] ∧
     (apiRun { apiEnvOk with openedDuration := some 3 }).qrecords = []) :=
  ⟨rfl, by decide, api_short_duration_aborts _ 3 rfl (by decide)⟩

/-- C2 counterexample: the upload pipeline has no duration guard.  With a
3-second video it still issues the speech-recognition request and the run
completes. -/
theorem admin_short_duration_transcribes :
    (3 : Rat) < 5 ∧
    (adminRun { adminEnvOk with audioExtract := some 3 }).sttCalled = true ∧
    (adminRun { adminEnvOk with audioExtract := some 3 }).done = true :=
  ⟨by decide, rfl, rfl⟩

/-! Claim C3: cleanup of transient local files. -/

/-- C3 (amended): in both pipelines the transient local files are deleted
exactly on the runs that reach the final completion point (in the URL
pipeline, the cleanup after the persistence phase, which also runs when the
database insert itself failed; in the upload pipeline, the cleanup after a
successful question insert).  Every earlier abort or crash skips the
cleanup and leaves the files behind. -/
theorem cleanup_runs_iff_completed :
    (∀ e : ApiEnv, (apiRun e).cleanupRan = (apiRun e).done) ∧
    (∀ e : AdminEnv, (adminRun e).cleanupRan = (adminRun e).done) := by
  refine ⟨fun e => ?_, fun e => ?_⟩
  · unfold apiRun
    repeat' split
    all_goals rfl
  · unfold adminRun
    repeat' split
    all_goals rfl

/-- C3 counterexample: a URL-pipeline run aborting on the duration guard
has created the temporary video file but never deletes it. -/
theorem abort_leaves_files_behind :
    (apiRun { apiEnvOk with openedDuration := some 3 }).videoCreated = true ∧
    (apiRun { apiEnvOk with openedDuration := some 3 }).cleanupRan = false :=
  ⟨rfl, rfl⟩

/-! Claim C4: stage ordering. -/

/-- C4 (amended): the URL-trigger pipeline visits its stages in the linear
order Acquiring, ExtractingAudio, Transcribing, Synthesizing, Publishing,
Persisting, but the upload pipeline publishes before synthesizing: its
order is Acquiring, ExtractingAudio, Transcribing, Publishing,
Synthesizing, Persisting.  In both, every run's stage list is a prefix of
the respective order, so the path is linear and no stage is revisited. -/
theorem pipeline_stage_order :
    (∀ e : ApiEnv, ((apiRun e).stages.isPrefixOf
      [Stage.acquiring, .extractingAudio, .transcribing, .synthesizing,
       .publishing, .persisting]) = true) ∧
    (∀ e : AdminEnv, ((adminRun e).stages.isPrefixOf
      [Stage.acquiring, .extractingAudio, .transcribing, .publishing,
       .synthesizing, .persisting]) = true) := by
  refine ⟨fun e => ?_, fun e => ?_⟩
  · unfold apiRun
    repeat' split
    all_goals rfl
  · unfold adminRun
    repeat' split
    all_goals rfl

/-- C4 counterexample: a fully successful upload-pipeline run enters
Publishing before Synthesizing, so its stage sequence is not a prefix of
the order claimed for every run (which puts Synthesizing first). -/
theorem admin_publishes_before_synthesizing :
    (adminRun adminEnvOk).stages =
      [Stage.acquiring, .extractingAudio, .transcribing, .publishing,
       .synthesizing, .persisting] ∧
    ((adminRun adminEnvOk).stages.isPrefixOf
      [Stage.acquiring, .extractingAudio, .transcribing, .synthesizing,
       .publishing, .persisting]) = false :=
  ⟨rfl, rfl⟩

/-! Claim C5: tolerance of a degraded generative response. -/

/-- C5 (amended): in the URL-trigger pipeline, a generative response that
parses as JSON with no metadata object and an empty (or absent) questions
array still lets the run succeed, persisting exactly one ContentRecord
with title "Untitled", category "General", null sub-category, and zero
QuestionRecords.  The upload pipeline instead crashes on an absent
questions array after inserting a ContentRecord carrying the
operator-supplied title (see the counterexample). -/
theorem api_degraded_response_defaults
    (e : ApiEnv) (path src t : String) (d : Rat) (ai : List (String × JVal))
    (hurl : ¬ e.url = "")
    (hdl : e.download = some (path, src))
    (hdur : e.openedDuration = some d) (hd5 : ¬ d < 5)
    (hwa : e.writeAudioOk = true)
    (ht : e.transcribe = some t) (hlen : ¬ t.length < 20)
    (hai : e.aiResponse = some ai)
    (hnometa : ai.find? (fun p => p.1 == "metadata") = none)
    (hq : pyDictGet ai "questions" (JVal.arr []) = JVal.arr [])
    (hup : e.uploadOk = true)
    (hins : e.insertContentOk = true) :
    (apiRun e).done = true ∧ (apiRun e).crashed = false ∧
    (apiRun e).uploads = ["Video.mp4"] ∧
    (apiRun e).contents =
      [{ video_url := e.publicUrlOf "Video.mp4", title := JVal.str "Untitled",
         transcript_text := t, category := JVal.str "General",
         sub_category := JVal.null, duration_seconds := pyInt d }] ∧
    (apiRun e).qrecords = [] := by
  have hmeta : pyDictGet ai "metadata" (JVal.obj []) = JVal.obj [] := by
    simp [pyDictGet, hnometa]
  rw [apiRun_success_eq e path src t d ai [] "Video" hurl hdl hdur hd5 hwa ht
        hlen hai hmeta rfl hup hins]
  refine ⟨rfl, rfl, rfl, rfl, ?_⟩
  rw [hq]
  rfl

/-- Witness for C5's theorem at a concrete degraded response. -/
theorem api_degraded_response_defaults_witness :
    (¬ apiEnvNoMeta.url = "") ∧ (¬ (30 : Rat) < 5) ∧
    (¬ apiTranscript.length < 20) ∧
    ([("questions", JVal.arr [])].find? (fun p => p.1 == "metadata") = none) ∧
    ((apiRun apiEnvNoMeta).done = true ∧ (apiRun apiEnvNoMeta).crashed = false ∧
     (apiRun apiEnvNoMeta).uploads = ["Video.mp4"] ∧
     (apiRun apiEnvNoMeta).contents =
       [{ video_url := apiEnvNoMeta.publicUrlOf "Video.mp4", title := JVal.str "Untitled",
          transcript_text := apiTranscript, category := JVal.str "General",
          sub_category := JVal.null, duration_seconds := pyInt 30 }] ∧
     (apiRun apiEnvNoMeta).qrecords = []) :=
  ⟨by decide, by decide, by decide, rfl,
   api_degraded_response_defaults apiEnvNoMeta "temp_abc.mp4" "Src" apiTranscript 30
     [("questions", JVal.arr [])] (by decide) rfl rfl (by decide) rfl rfl (by decide)
     rfl rfl rfl rfl rfl⟩

/-- C5 counterexample: on the upload path, a parsed response with no
metadata and no questions key crashes the run (KeyError) after the
ContentRecord was already inserted, and that record carries the
operator-supplied title rather than "Untitled". -/
theorem admin_degraded_response_aborts :
    (adminRun { adminEnvOk with aiResponse := some [] }).crashed = true ∧
    (adminRun { adminEnvOk with aiResponse := some [] }).done = false ∧
    (adminRun { adminEnvOk with aiResponse := some [] }).contents.map (fun r => r.title)
      = [JVal.str "My Talk"] :=
  ⟨rfl, rfl, rfl⟩

/-! Claim C6: entity counts of successful runs. -/

/-- C6 (amended): for every fully successful run of either pipeline,
exactly one ContentRecord is created and the number of QuestionRecords
equals the number of question entries returned by the synthesizer
(including zero).  In the URL-trigger pipeline the rows are built by
`apiQRow`, which fills missing draft fields with explicit sentinels
(stage 0, text "Error", empty wrong list) rather than dropping the draft;
in the upload pipeline a draft with a missing field instead crashes the
run (see the counterexample), so the count equality there holds because
only all-fields-present runs succeed. -/
theorem success_run_entity_counts :
    (∀ (e : ApiEnv) (path src t titleStr : String) (d : Rat)
       (ai m : List (String × JVal)) (qs : List (List (String × JVal))),
      ¬ e.url = "" → e.download = some (path, src) → e.openedDuration = some d →
      ¬ d < 5 → e.writeAudioOk = true → e.transcribe = some t → ¬ t.length < 20 →
      e.aiResponse = some ai → pyDictGet ai "metadata" (JVal.obj []) = JVal.obj m →
      pyDictGet m "title" (JVal.str "Video") = JVal.str titleStr →
      e.uploadOk = true → e.insertContentOk = true →
      pyDictGet ai "questions" (JVal.arr []) = JVal.arr (qs.map JVal.obj) →
      e.insertQuestionsOk = true →
      (apiRun e).contents.length = 1 ∧
      (apiRun e).qrecords = qs.map (apiQRow e.newId) ∧
      (apiRun e).qrecords.length = qs.length) ∧
    (∀ (e : AdminEnv) (t : String) (d : Rat) (ai : List (String × JVal))
       (qs : List (List (String × JVal))),
      e.audioExtract = some d → e.transcribe = some t → e.uploadOk = true →
      e.aiResponse = some ai → e.insertContentOk = true →
      pyDictGetStrict ai "questions" = some (JVal.arr (qs.map JVal.obj)) →
      (∀ m ∈ qs, (adminQRow e.newId m).isSome = true) →
      e.insertQuestionsOk = true →
      (adminRun e).contents.length = 1 ∧ (adminRun e).qrecords.length = qs.length) := by
  constructor
  · intro e path src t titleStr d ai m qs hurl hdl hdur hd5 hwa ht hlen hai
      hmeta htitle hup hins hqs hinsQ
    obtain ⟨hc, hr⟩ := apiRun_success_rows e path src t d ai m titleStr qs hurl hdl
      hdur hd5 hwa ht hlen hai hmeta htitle hup hins hqs hinsQ
    exact ⟨hc, hr, by rw [hr]; exact List.length_map qs (apiQRow e.newId)⟩
  · intro e t d ai qs hae ht hup hai hins hq hmk hinsQ
    obtain ⟨rows, hrows, hlen⟩ := optionRows_exists_of_isSome (adminQRow e.newId) qs hmk
    have hqr : questionRows (adminQRow e.newId) (JVal.arr (qs.map JVal.obj)) = some rows := by
      simp [questionRows, pyIter, hrows]
    rw [adminRun_success_eq e t d ai (JVal.arr (qs.map JVal.obj)) rows hae ht hup
          hai hins hq hqr hinsQ]
    exact ⟨rfl, hlen⟩

/-- Witness for C6's theorem at the two concrete all-success environments. -/
theorem success_run_entity_counts_witness :
    (¬ apiEnvOk.url = "") ∧ (¬ (30 : Rat) < 5) ∧ (¬ apiTranscript.length < 20) ∧
    (∀ m ∈ sampleQuestions, (adminQRow adminEnvOk.newId m).isSome = true) ∧
    ((apiRun apiEnvOk).contents.length = 1 ∧
     (apiRun apiEnvOk).qrecords = sampleQuestions.map (apiQRow apiEnvOk.newId) ∧
     (apiRun apiEnvOk).qrecords.length = sampleQuestions.length) ∧
    ((adminRun adminEnvOk).contents.length = 1 ∧
     (adminRun adminEnvOk).qrecords.length = sampleQuestions.length) :=
  ⟨by decide, by decide, by decide, by decide,
   success_run_entity_counts.1 apiEnvOk "temp_abc.mp4" "Src" apiTranscript
     "Gravity Basics" 30 sampleAi
     [("title", JVal.str "Gravity Basics"), ("category", JVal.str "Science")]
     sampleQuestions (by decide) rfl rfl (by decide) rfl rfl (by decide) rfl rfl
     rfl rfl rfl rfl rfl,
   success_run_entity_counts.2 adminEnvOk apiTranscript 30
     [("questions", JVal.arr (sampleQuestions.map JVal.obj))] sampleQuestions
     rfl rfl rfl rfl rfl rfl (by decide) rfl⟩

/-- An upload-pipeline environment whose single question draft carries
only a `stage` field. -/
def adminEnvMissingField : AdminEnv :=
  { adminEnvOk with aiResponse := some [("questions", JVal.arr [JVal.obj [("stage", JVal.num 0)]])] }

/-- C6 counterexample: on the upload path, a draft missing its fields is
not filled with sentinels — the run crashes and inserts no question row. -/
theorem admin_missing_field_draft_aborts :
    (adminRun adminEnvMissingField).crashed = true ∧
    (adminRun adminEnvMissingField).qrecords = [] ∧
    (adminRun adminEnvMissingField).done = false :=
  ⟨rfl, rfl, rfl⟩

/-! Claim C7: validity of persisted question rows. -/

/-- C7 (amended): persisted question rows copy the synthesizer's `stage`
and `wrong` values verbatim (URL pipeline, with sentinel defaults 0 and []
when the fields are absent); no [0,4] range check and no
three-entry check on the wrong-options list is performed anywhere, so
out-of-range stages are inserted unchanged (see the counterexample). -/
theorem api_question_fields_verbatim
    (e : ApiEnv) (path src t titleStr : String) (d : Rat)
    (ai m : List (String × JVal)) (qs : List (List (String × JVal)))
    (hurl : ¬ e.url = "")
    (hdl : e.download = some (path, src))
    (hdur : e.openedDuration = some d) (hd5 : ¬ d < 5)
    (hwa : e.writeAudioOk = true)
    (ht : e.transcribe = some t) (hlen : ¬ t.length < 20)
    (hai : e.aiResponse = some ai)
    (hmeta : pyDictGet ai "metadata" (JVal.obj []) = JVal.obj m)
    (htitle : pyDictGet m "title" (JVal.str "Video") = JVal.str titleStr)
    (hup : e.uploadOk = true)
    (hins : e.insertContentOk = true)
    (hqs : pyDictGet ai "questions" (JVal.arr []) = JVal.arr (qs.map JVal.obj))
    (hinsQ : e.insertQuestionsOk = true) :
    (apiRun e).qrecords.map (fun r => r.difficulty_phase)
      = qs.map (fun m2 => pyDictGet m2 "stage" (JVal.num 0)) ∧
    (apiRun e).qrecords.map (fun r => r.wrong_options)
      = qs.map (fun m2 => pyDictGet m2 "wrong" (JVal.arr [])) := by
  obtain ⟨-, hr⟩ := apiRun_success_rows e path src t d ai m titleStr qs hurl hdl
    hdur hd5 hwa ht hlen hai hmeta htitle hup hins hqs hinsQ
  rw [hr]
  constructor
  · rw [List.map_map]
    rfl
  · rw [List.map_map]
    rfl

/-- Witness for C7's theorem at the concrete all-success environment. -/
theorem api_question_fields_verbatim_witness :
    (¬ apiEnvOk.url = "") ∧ (¬ (30 : Rat) < 5) ∧ (¬ apiTranscript.length < 20) ∧
    ((apiRun apiEnvOk).qrecords.map (fun r => r.difficulty_phase)
       = sampleQuestions.map (fun m2 => pyDictGet m2 "stage" (JVal.num 0)) ∧
     (apiRun apiEnvOk).qrecords.map (fun r => r.wrong_options)
       = sampleQuestions.map (fun m2 => pyDictGet m2 "wrong" (JVal.arr []))) :=
  ⟨by decide, by decide, by decide,
   api_question_fields_verbatim apiEnvOk "temp_abc.mp4" "Src" apiTranscript
     "Gravity Basics" 30 sampleAi
     [("title", JVal.str "Gravity Basics"), ("category", JVal.str "Science")]
     sampleQuestions (by decide) rfl rfl (by decide) rfl rfl (by decide) rfl rfl
     rfl rfl rfl rfl rfl⟩

/-- C7 counterexample: a draft with stage 7 and only two wrong options is
persisted as-is by the URL pipeline, and the run completes. -/
theorem api_inserts_out_of_range_stage :
    (apiRun apiEnvBadQ).qrecords.map (fun r => r.difficulty_phase) = [JVal.num 7] ∧
    (¬ ((0 : Int) ≤ 7 ∧ (7 : Int) ≤ 4)) ∧
    (apiRun apiEnvBadQ).qrecords.map (fun r => r.wrong_options)
      = [JVal.arr [JVal.str "w1", JVal.str "w2"]] ∧
    (apiRun apiEnvBadQ).done = true :=
  ⟨rfl, by decide, rfl, rfl⟩

/-! Claim C8: storage-key derivation. -/

/-- A kept character stays allowed after space replacement. -/
theorem keepChar_spaceToUnderscore (c : Char) (h : keepChar c = true) :
    keepChar (spaceToUnderscore c) = true := by
  by_cases hc : c = ' '
  · subst hc
    decide
  · simpa [spaceToUnderscore, hc] using h

/-- Space replacement is idempotent on characters. -/
theorem spaceToUnderscore_idem (c : Char) :
    spaceToUnderscore (spaceToUnderscore c) = spaceToUnderscore c := by
  by_cases hc : c = ' '
  · subst hc
    decide
  · simp [spaceToUnderscore, hc]

/-- After filtering and space replacement, a character is alphanumeric, an
underscore, or a hyphen. -/
theorem safeChar_after (c : Char) (h : keepChar c = true) :
    ((spaceToUnderscore c).isAlphanum || spaceToUnderscore c == '_'
      || spaceToUnderscore c == '-') = true := by
  by_cases hc : c = ' '
  · subst hc
    decide
  · have he : spaceToUnderscore c = c := by simp [spaceToUnderscore, hc]
    rw [he]
    simp only [keepChar] at h
    simp only [Bool.or_eq_true, beq_iff_eq] at h ⊢
    rcases h with ((h | h) | h) | h
    · exact Or.inl (Or.inl h)
    · exact absurd h hc
    · exact Or.inl (Or.inr h)
    · exact Or.inr h

/-- Space replacement is idempotent on character lists. -/
theorem map_spaceToUnderscore_idem (l : List Char) :
    (l.map spaceToUnderscore).map spaceToUnderscore = l.map spaceToUnderscore := by
  induction l with
  | nil => rfl
  | cons c l ih => simp [spaceToUnderscore_idem, ih]

/-- C8 (amended): the URL pipeline's storage-name derivation strips the
title to alphanumeric/space/hyphen/underscore characters and then replaces
spaces with underscores, and is idempotent; its output contains only
alphanumeric, underscore or hyphen characters.  The upload pipeline's
derivation only replaces spaces — it performs no stripping (see the
counterexample) — but is deterministic and idempotent as well. -/
theorem storage_key_derivation_properties :
    (∀ t : String, apiStorageName (apiStorageName t) = apiStorageName t) ∧
    (∀ t : String, adminStorageName (adminStorageName t) = adminStorageName t) ∧
    (∀ t : String, ((apiStorageName t).toList.all
      (fun c => c.isAlphanum || c == '_' || c == '-')) = true) := by
  refine ⟨fun t => ?_, fun t => ?_, fun t => ?_⟩
  · unfold apiStorageName pyReplaceSpace apiSafeTitle
    simp only [toList_mk]
    have hfilter : ((t.toList.filter keepChar).map spaceToUnderscore).filter keepChar
        = (t.toList.filter keepChar).map spaceToUnderscore := by
      apply List.filter_eq_self.2
      intro a ha
      obtain ⟨b, hb, rfl⟩ := List.mem_map.1 ha
      exact keepChar_spaceToUnderscore b (List.of_mem_filter hb)
    rw [hfilter, map_spaceToUnderscore_idem]
  · unfold adminStorageName pyReplaceSpace
    simp only [toList_mk]
    rw [map_spaceToUnderscore_idem]
  · unfold apiStorageName pyReplaceSpace apiSafeTitle
    simp only [toList_mk]
    rw [List.all_eq_true]
    intro a ha
    obtain ⟨b, hb, rfl⟩ := List.mem_map.1 ha
    exact safeChar_after b (List.of_mem_filter hb)

/-- C8 counterexample: the upload pipeline's key derivation does not strip
disallowed characters — the slash survives into the storage key, unlike
the URL pipeline's derivation on the same title. -/
theorem admin_key_not_stripped :
    ((adminFileName "a/b").toList.contains '/') = true ∧
    ((apiFilename "a/b").toList.contains '/') = false ∧
    adminFileName "a/b" ≠ apiFilename "a/b" :=
  ⟨rfl, rfl, by decide⟩

/-! Claim C9: trigger-surface validation. -/

/-- C9 (amended): the upload form rejects a submission with no file or an
empty title (it warns instead of processing) and processes only complete
submissions, but the URL-trigger endpoint accepts every request — even an
empty locator — with the "processing" acknowledgement; the empty-locator
check happens only inside the background pipeline, which then aborts
without creating anything. -/
theorem trigger_surface_behavior :
    (∀ u : String, captureVideo u =
      { status := "processing", message := "Fluency is curating this video..." }) ∧
    (∀ e : ApiEnv, e.url = "" →
      (apiRun e).stages = [] ∧ (apiRun e).uploads = [] ∧ (apiRun e).contents = []) ∧
    (∀ t : String, adminSubmit true false t = TriggerAction.warn) ∧
    (adminSubmit true true "" = TriggerAction.warn) ∧
    (∀ t : String, t ≠ "" → adminSubmit true true t = TriggerAction.process) := by
  refine ⟨fun u => rfl, fun e h => ?_, fun t => rfl, rfl, fun t ht => ?_⟩
  · unfold apiRun
    simp [h]
  · simp [adminSubmit, ht]

/-- Witness for C9's theorem at concrete inputs. -/
theorem trigger_surface_behavior_witness :
    ({ apiEnvOk with url := "" } : ApiEnv).url = "" ∧
    "Latent Demand" ≠ "" ∧
    ((apiRun { apiEnvOk with url := "" }).stages = [] ∧
     (apiRun { apiEnvOk with url := "" }).uploads = [] ∧
     (apiRun { apiEnvOk with url := "" }).contents = []) ∧
    adminSubmit true true "Latent Demand" = TriggerAction.process :=
  ⟨rfl, by decide, trigger_surface_behavior.2.1 _ rfl,
   trigger_surface_behavior.2.2.2.2 "Latent Demand" (by decide)⟩

/-- C9 counterexample: a submission with an empty remote locator is
accepted by the endpoint with the "processing" acknowledgement, not
rejected. -/
theorem empty_locator_accepted :
    (captureVideo "").status = "processing" ∧
    (captureVideo "").message = "Fluency is curating this video..." :=
  ⟨rfl, rfl⟩

/-! Claim C10: storage key versus persisted title on a missing title. -/

/-- C10: in the URL-trigger pipeline, when the generative response's
metadata has no title, the storage key is derived from the fallback
"Video" — yielding "Video.mp4" — while the persisted ContentRecord's title
defaults to "Untitled"; so the storage key is not the one the stored title
would derive. -/
theorem api_storage_key_not_from_record_title
    (e : ApiEnv) (path src t : String) (d : Rat) (ai m : List (String × JVal))
    (hurl : ¬ e.url = "")
    (hdl : e.download = some (path, src))
    (hdur : e.openedDuration = some d) (hd5 : ¬ d < 5)
    (hwa : e.writeAudioOk = true)
    (ht : e.transcribe = some t) (hlen : ¬ t.length < 20)
    (hai : e.aiResponse = some ai)
    (hmeta : pyDictGet ai "metadata" (JVal.obj []) = JVal.obj m)
    (hnotitle : m.find? (fun p => p.1 == "title") = none)
    (hup : e.uploadOk = true)
    (hins : e.insertContentOk = true) :
    (apiRun e).uploads = ["Video.mp4"] ∧
    (apiRun e).contents.map (fun r => r.title) = [JVal.str "Untitled"] ∧
    apiFilename "Untitled" ≠ "Video.mp4" := by
  have htitle : pyDictGet m "title" (JVal.str "Video") = JVal.str "Video" := by
    simp [pyDictGet, hnotitle]
  rw [apiRun_success_eq e path src t d ai m "Video" hurl hdl hdur hd5 hwa ht
        hlen hai hmeta htitle hup hins]
  refine ⟨rfl, ?_, by decide⟩
  simp [pyDictGet, hnotitle]

/-- Witness for C10's theorem at a concrete response without a title. -/
theorem api_storage_key_not_from_record_title_witness :
    (¬ apiEnvNoTitle.url = "") ∧ (¬ (30 : Rat) < 5) ∧
    (¬ apiTranscript.length < 20) ∧
    ([("category", JVal.str "Science")].find? (fun p => p.1 == "title") = none) ∧
    ((apiRun apiEnvNoTitle).uploads = ["Video.mp4"] ∧
     (apiRun apiEnvNoTitle).contents.map (fun r => r.title) = [JVal.str "Untitled"] ∧
     apiFilename "Untitled" ≠ "Video.mp4") :=
  ⟨by decide, by decide, by decide, rfl,
   api_storage_key_not_from_record_title apiEnvNoTitle "temp_abc.mp4" "Src"
     apiTranscript 30 noTitleAi [("category", JVal.str "Science")]
     (by decide) rfl rfl (by decide) rfl rfl (by decide) rfl rfl rfl rfl rfl⟩
